import Mathlib

/-!
# rawio: cancellable reads on a raw descriptor

A shallow embedding of `epoll.go`, `latch.go` and `reader.go`.

The operating system and the other goroutines are an oracle: every system
call the code makes takes its outcome from an explicit argument, and every
read of a flag that another goroutine may write takes the state of that
goroutine from an explicit argument.  A Go `error` is `Option Error`, with
`none` for `nil`.
-/

namespace Rawio

/-! ## Errors and platform constants -/

/-- Go error values that the package can hand around: a `syscall.Errno`,
`io.EOF`, or any other error value (for instance `context.Canceled`). -/
inductive Error where
  | errno (e : Nat)
  | eof
  | other (id : Nat)
  deriving DecidableEq, Repr

/-- Linux value of `syscall.EINTR`. -/
def EINTR : Nat := 4
/-- Linux value of `syscall.EBADF`. -/
def EBADF : Nat := 9
/-- Linux value of `syscall.EAGAIN`. -/
def EAGAIN : Nat := 11
/-- Linux value of `syscall.ENOMEM`. -/
def ENOMEM : Nat := 12
/-- Linux value of `syscall.EINVAL`. -/
def EINVAL : Nat := 22
/-- Linux value of `unix.EBADE`. -/
def EBADE : Nat := 52
/-- Linux value of `unix.EBADFD`. -/
def EBADFD : Nat := 77

/-- Linux value of `unix.EPOLLIN`. -/
def EPOLLIN : Nat := 0x1
/-- Linux value of `unix.EPOLLHUP`. -/
def EPOLLHUP : Nat := 0x10
/-- Linux value of `unix.EPOLLRDHUP`. -/
def EPOLLRDHUP : Nat := 0x2000
/-- Linux value of `unix.EPOLLONESHOT`. -/
def EPOLLONESHOT : Nat := 0x40000000
/-- Linux value of `unix.EPOLLET`. -/
def EPOLLET : Nat := 0x80000000

/-- Go conversion `int32(x)` of an `int`. -/
def int32 (x : Int) : Int := (x + 2 ^ 31) % 2 ^ 32 - 2 ^ 31

/-- `IsEAGAIN` of epoll.go: true exactly for the errnos EAGAIN and EINTR. -/
def IsEAGAIN (err : Option Error) : Bool :=
  match err with
  | none => false
  | some (Error.errno errno) => errno == EAGAIN || errno == EINTR
  | some _ => false

/-! ## epoll.go -/

/-- `unix.EpollEvent`, without its padding. -/
structure EpollEvent where
  Events : Nat
  Fd : Int
  deriving DecidableEq, Repr

/-- The `epoll` struct of epoll.go. -/
structure epoll where
  pollFD : Int
  commFD : Int
  events : Nat
  deriving DecidableEq, Repr

/-- `(*epoll).event`. -/
def epoll.event (p : epoll) : EpollEvent :=
  { Fd := p.commFD, Events := EPOLLET ||| EPOLLONESHOT ||| p.events }

/-- `prepEpoll`.  `create` is what `unix.EpollCreate1(0)` returns and `ctlAdd`
what the `EPOLL_CTL_ADD` call returns.  The close of the poll descriptor at
line 46 does not bear on the result. -/
def prepEpoll (fd : Int) (events : Nat) (create : Int × Option Error)
    (ctlAdd : Option Error) : Except Error epoll :=
  match create.2 with
  | some err => .error err
  | none =>
    let p : epoll := { pollFD := create.1, commFD := int32 fd, events := events }
    match ctlAdd with
    | some err => .error err
    | none => .ok p

/-- `(*epoll).rearm`: the result of the `EPOLL_CTL_MOD` call, unchanged. -/
def epoll.rearm (_p : epoll) (ctlMod : Option Error) : Option Error := ctlMod

/-- What `unix.EpollWait(p.pollFD, evts, -1)` delivers: the count, the error
and the content of `evts[0]` after the call. -/
structure WaitResult where
  n : Int
  err : Option Error
  evt : EpollEvent
  deriving DecidableEq, Repr

/-- `(*epoll).wait`, without its logging. -/
def epoll.wait (p : epoll) (os : WaitResult) : Nat × Option Error :=
  match os.err with
  | some err => (0, some err)
  | none =>
    if os.n ≠ 1 then (0, some (Error.errno EBADFD))
    else if os.evt.Fd ≠ p.commFD then (0, some (Error.errno EBADE))
    else (os.evt.Events, none)

/-! ## latch.go -/

/-- A system call that was made, with its result. -/
inductive SysCall where
  | close (fd : Int) (err : Option Error)
  | tgkill (pid tid : Int) (sig : Nat) (err : Option Error)
  deriving DecidableEq, Repr

/-- The `threadLatch` struct.  `longReaders` is the number of shared holds of
the `long` lock that outlive an operation; the `short` mutex and the
exclusive hold of `long` are taken and released inside each operation. -/
structure threadLatch where
  active : Bool
  threadID : Int
  longReaders : Nat
  deriving DecidableEq, Repr

/-- `(*threadLatch).activate`; `gettid` is what `unix.Gettid()` returns. -/
def threadLatch.activate (tl : threadLatch) (gettid : Int) : threadLatch :=
  { tl with threadID := gettid, active := true }

/-- `(*threadLatch).latch`. -/
def threadLatch.latch (tl : threadLatch) (gettid : Int) : threadLatch :=
  let tl := tl.activate gettid
  { tl with longReaders := tl.longReaders + 1 }

/-- `(*threadLatch).deactivate`. -/
def threadLatch.deactivate (tl : threadLatch) : threadLatch :=
  { tl with threadID := 0, active := false }

/-- `(*threadLatch).unlatch`. -/
def threadLatch.unlatch (tl : threadLatch) : threadLatch :=
  let tl := { tl with longReaders := tl.longReaders - 1 }
  tl.deactivate

/-- What the system answers to the calls of `notify`. -/
structure NotifyEnv where
  gettid : Int
  getpid : Int
  tgkill : Option Error
  deriving DecidableEq, Repr

/-- `(*threadLatch).notify`.  `NotifySignal` is the package variable of that
name.  Returns the error and the signal deliveries that were made. -/
def threadLatch.notify (tl : threadLatch) (signal : Nat) (NotifySignal : Nat)
    (os : NotifyEnv) : Option Error × List SysCall :=
  if !tl.active then (none, [])
  else if tl.threadID == os.gettid then (none, [])
  else
    let signal := if signal == 0 then NotifySignal else signal
    (os.tgkill, [SysCall.tgkill os.getpid tl.threadID signal os.tgkill])

/-- `(*epoll).latchWait`: the wait bracketed by `latch` and the deferred
`unlatch`. -/
def epoll.latchWait (p : epoll) (l : threadLatch) (gettid : Int) (os : WaitResult) :
    (Nat × Option Error) × threadLatch :=
  let l := l.latch gettid
  let res := p.wait os
  (res, l.unlatch)

/-! ## reader.go -/

/-- The `RawReader` struct; `isOpen` is its field `open`. -/
structure RawReader where
  fd : Int
  isOpen : Bool
  threadLatch : threadLatch
  deriving DecidableEq, Repr

/-- `NewRawReader`; `setNonblock` is what `unix.SetNonblock(fd, true)` returns. -/
def NewRawReader (fd : Int) (setNonblock : Option Error) : Except Error RawReader :=
  match setNonblock with
  | some err => .error err
  | none => .ok { fd := fd, isOpen := true, threadLatch := ⟨false, 0, 0⟩ }

/-- What the system answers to the calls of `Close`. -/
structure CloseEnv where
  close : Option Error
  notify : NotifyEnv
  deriving DecidableEq, Repr

/-- `(*RawReader).Close`: the reader afterwards, the returned error and the
system calls made. -/
def RawReader.Close (r : RawReader) (NotifySignal : Nat) (os : CloseEnv) :
    RawReader × Option Error × List SysCall :=
  if !r.isOpen then (r, none, [])
  else
    match os.close with
    | some err => (r, some err, [SysCall.close r.fd (some err)])
    | none =>
      match r.threadLatch.notify NotifySignal NotifySignal os.notify with
      | (some err, calls) => (r, some err, SysCall.close r.fd none :: calls)
      | (none, calls) =>
        ({ r with fd := -1, isOpen := false }, none, SysCall.close r.fd none :: calls)

/-- `(*RawReader).Fd`. -/
def RawReader.Fd (r : RawReader) : Int := r.fd

/-- `(*RawReader).closed`. -/
def RawReader.closed (r : RawReader) : Bool := !r.isOpen

/-- The reader as another goroutine's `Close` leaves it: `closedBy` says
whether such a `Close` has completed (lines 66-67) by the time of the look. -/
def RawReader.seen (r : RawReader) (closedBy : Bool) : RawReader :=
  if closedBy then { r with fd := -1, isOpen := false } else r

/-- A `context.Context` as far as the reader uses it: `err` is what `Err()`
returns once `Done()` is closed. -/
structure Context where
  err : Error
  deriving DecidableEq, Repr

/-- The local `cancelled` of `readContext`: only the watcher goroutine sets
it, and the watcher exists only for a non-nil context; `fired` says whether
the watcher has set it by the time of the look. -/
def cancelled (ctx : Option Context) (fired : Bool) : Bool :=
  match ctx with
  | none => false
  | some _ => fired

/-- What the system and the other goroutines do during one pass through the
loop of `readContext`: the outcome of `unix.Read`, the thread id seen by
`latch`, the outcome of `unix.EpollWait`, the state of the watcher and of a
concurrent `Close` at line 128, and the outcome of the rearming call. -/
structure Iter where
  read : Int × Option Error
  gettid : Int
  wait : WaitResult
  fired : Bool
  closedBy : Bool
  rearm : Option Error
  deriving DecidableEq, Repr

/-- The variables when the loop of `readContext` is left: `n` and `err` are
the ones declared at function level (lines 113 and 119), `innerErr` is the
`err` that line 125 declares with `:=` inside the loop body and that goes out
of scope with it (`none` when line 125 was not reached in the last pass). -/
structure LoopExit where
  n : Int
  err : Option Error
  innerErr : Option Error
  threadLatch : threadLatch
  deriving DecidableEq, Repr

/-- One pass through the loop body (lines 121-143): `Sum.inl` when a `break`
leaves the loop, `Sum.inr` with the latch when the pass runs to its end. -/
def loopBody (r : RawReader) (ctx : Option Context) (ep : epoll) (l : threadLatch)
    (it : Iter) : LoopExit ⊕ threadLatch :=
  -- line 121: assigns the function-level n and err
  let n := it.read.1
  let err := it.read.2
  if err == none || !IsEAGAIN err then Sum.inl ⟨n, err, none, l⟩
  else
    -- line 125: declares ev and a new err
    let w := ep.latchWait l it.gettid it.wait
    let ev := w.1.1
    let innerErr := w.1.2
    let l := w.2
    let leave : LoopExit := ⟨n, err, innerErr, l⟩
    -- lines 136-143, reached when lines 126-134 do not break
    let onward : LoopExit ⊕ threadLatch :=
      if ev &&& (EPOLLHUP ||| EPOLLRDHUP) > 0 then
        -- line 137 assigns the err of line 125
        Sum.inl { leave with innerErr := some Error.eof }
      else
        -- line 141 assigns the err of line 125
        match ep.rearm it.rearm with
        | some e => Sum.inl { leave with innerErr := some e }
        | none => Sum.inr l
    if innerErr != none then
      if IsEAGAIN innerErr then
        if cancelled ctx it.fired || (r.seen it.closedBy).closed then Sum.inl leave
        else onward
      else Sum.inl leave
    else onward

/-- The loop of `readContext` (lines 120-144) run against a script of passes;
`none` when the script ends with the loop still running. -/
def loop (r : RawReader) (ctx : Option Context) (ep : epoll) :
    threadLatch → List Iter → Option LoopExit
  | _, [] => none
  | l, it :: rest =>
    match loopBody r ctx ep l it with
    | Sum.inl ex => some ex
    | Sum.inr l => loop r ctx ep l rest

/-- What the system and the other goroutines do during one call of
`readContext`: the outcomes of the two calls of `prepEpoll`, the passes
through the loop, and the state of a concurrent `Close` and of the watcher
at lines 148 and 151. -/
structure ReadEnv where
  epollCreate : Int × Option Error
  epollCtlAdd : Option Error
  iters : List Iter
  closedBy : Bool
  fired : Bool
  deriving DecidableEq, Repr

/-- Lines 146-155: the resolution of the function-level `err` after the loop. -/
def resolve (r : RawReader) (ctx : Option Context) (closedBy fired : Bool)
    (err : Option Error) : Option Error :=
  if IsEAGAIN err then
    if (r.seen closedBy).closed then some Error.eof
    else
      match ctx with
      | some c => if fired then some c.err else err
      | none => err
  else err

/-- `(*RawReader).readContext`: the returned pair, or `none` while the call
is still in its loop at the end of the script.  The deferred `ep.Close()` and
`close(done)` do not bear on the returned pair. -/
def RawReader.readContext (r : RawReader) (ctx : Option Context) (env : ReadEnv) :
    Option (Int × Option Error) :=
  match prepEpoll r.fd (EPOLLIN ||| EPOLLRDHUP) env.epollCreate env.epollCtlAdd with
  | .error err => some (0, some err)
  | .ok ep =>
    match loop r ctx ep r.threadLatch env.iters with
    | none => none
    | some ex => some (ex.n, resolve r ctx env.closedBy env.fired ex.err)

/-- `(*RawReader).Read`. -/
def RawReader.Read (r : RawReader) (env : ReadEnv) : Option (Int × Option Error) :=
  r.readContext none env

/-- `(*RawReader).ReadContext`. -/
def RawReader.ReadContext (r : RawReader) (ctx : Option Context) (env : ReadEnv) :
    Option (Int × Option Error) :=
  r.readContext ctx env

/-- One `Close` call as it meets the reader: the latch as the reading
goroutine has left it by then, and the answers of the system. -/
structure CloseCall where
  latch : threadLatch
  os : CloseEnv
  deriving DecidableEq, Repr

/-- A run of `Close` calls on one reader: the reader afterwards and, per
call, the returned error and the system calls made. -/
def closeAll (NotifySignal : Nat) :
    RawReader → List CloseCall → RawReader × List (Option Error × List SysCall)
  | r, [] => (r, [])
  | r, c :: rest =>
    let res := RawReader.Close { r with threadLatch := c.latch } NotifySignal c.os
    let tail := closeAll NotifySignal res.1 rest
    (tail.1, (res.2.1, res.2.2) :: tail.2)

/-- The successful closes of descriptor `fd` among the system calls made. -/
def closesOf (fd : Int) (calls : List SysCall) : Nat :=
  (calls.filter (fun c => c == SysCall.close fd none)).length

/-! ## Auxiliary facts -/

theorem IsEAGAIN_none : IsEAGAIN none = false := rfl

theorem IsEAGAIN_eof : IsEAGAIN (some Error.eof) = false := rfl

theorem IsEAGAIN_some_of_true {err : Option Error} (h : IsEAGAIN err = true) :
    err ≠ none := by
  intro hn
  rw [hn] at h
  exact Bool.noConfusion h

/-- A `Close` on a reader that is not open returns nil, makes no system call
and leaves the reader as it is. -/
theorem Close_of_not_open (r : RawReader) (sig : Nat) (os : CloseEnv)
    (h : r.isOpen = false) : r.Close sig os = (r, none, []) := by
  simp [RawReader.Close, h]

/-- A `Close` that returns nil leaves a reader that is not open. -/
theorem Close_nil_not_open (r : RawReader) (sig : Nat) (os : CloseEnv)
    (h : (r.Close sig os).2.1 = none) : (r.Close sig os).1.isOpen = false := by
  unfold RawReader.Close at h ⊢
  cases hopen : r.isOpen
  · simp [hopen]
  · simp only [hopen, Bool.not_true, Bool.false_eq_true, if_false] at h ⊢
    cases hc : os.close with
    | some e => simp [hc] at h
    | none =>
      simp only [hc] at h ⊢
      rcases hnot : r.threadLatch.notify sig sig os.notify with ⟨e, calls⟩
      cases e with
      | some e => simp [hnot] at h
      | none => simp [hnot]

/-- `Close` keeps: a reader that is not open has descriptor -1. -/
theorem Close_keeps_sentinel (r : RawReader) (sig : Nat) (os : CloseEnv)
    (h : r.isOpen = false → r.fd = -1) :
    (r.Close sig os).1.isOpen = false → (r.Close sig os).1.fd = -1 := by
  unfold RawReader.Close
  cases hopen : r.isOpen
  · intro _
    simpa [hopen] using h hopen
  · simp only [Bool.not_true, Bool.false_eq_true, if_false]
    cases hc : os.close with
    | some e => simp [hopen]
    | none =>
      rcases hnot : r.threadLatch.notify sig sig os.notify with ⟨e, calls⟩
      cases e with
      | some e => simp [hopen]
      | none => simp

/-- A run of `Close` calls keeps: a reader that is not open has descriptor -1. -/
theorem closeAll_keeps_sentinel (sig : Nat) (cs : List CloseCall) :
    ∀ r : RawReader, (r.isOpen = false → r.fd = -1) →
      ((closeAll sig r cs).1.isOpen = false → (closeAll sig r cs).1.fd = -1) := by
  induction cs with
  | nil => intro r h; simpa [closeAll] using h
  | cons c rest ih =>
    intro r h
    simp only [closeAll]
    apply ih
    apply Close_keeps_sentinel
    simpa using h

/-- On a reader that is not open a run of `Close` calls returns nil each
time, makes no system call and changes neither `isOpen` nor `fd`. -/
theorem closeAll_of_not_open (sig : Nat) (cs : List CloseCall) :
    ∀ r : RawReader, r.isOpen = false →
      (closeAll sig r cs).1.isOpen = false ∧ (closeAll sig r cs).1.fd = r.fd ∧
      ∀ x ∈ (closeAll sig r cs).2, x = (none, []) := by
  induction cs with
  | nil => intro r h; simp [closeAll, h]
  | cons c rest ih =>
    intro r h
    have hstep := Close_of_not_open { r with threadLatch := c.latch } sig c.os h
    simp only [closeAll, hstep]
    have := ih { r with threadLatch := c.latch } h
    refine ⟨this.1, this.2.1, ?_⟩
    intro x hx
    rcases List.mem_cons.mp hx with hx | hx
    · exact hx
    · exact this.2.2 x hx

/-- Passes that do not leave the loop only hand on a latch: the loop then
goes on with whatever comes next. -/
theorem loop_append (r : RawReader) (ctx : Option Context) (ep : epoll)
    (pre : List Iter) :
    ∀ l : threadLatch, loop r ctx ep l pre = none →
      ∃ l1 : threadLatch, ∀ suf : List Iter,
        loop r ctx ep l (pre ++ suf) = loop r ctx ep l1 suf := by
  induction pre with
  | nil => intro l _; exact ⟨l, fun suf => rfl⟩
  | cons it rest ih =>
    intro l h
    simp only [loop] at h
    cases hb : loopBody r ctx ep l it with
    | inl ex => simp [hb] at h
    | inr l2 =>
      simp only [hb] at h
      obtain ⟨l1, hl1⟩ := ih l2 h
      refine ⟨l1, fun suf => ?_⟩
      simp only [List.cons_append, loop, hb]
      exact hl1 suf

/-- A pass whose read attempt and whose wait both report a retryable error
leaves the loop at line 129 when the reader is cancelled or closed, with the
error of the read attempt in the function-level `err`. -/
theorem loopBody_interrupted (r : RawReader) (ctx : Option Context) (ep : epoll)
    (l : threadLatch) (it : Iter)
    (hread : IsEAGAIN it.read.2 = true)
    (hwait : IsEAGAIN (ep.wait it.wait).2 = true)
    (hflag : (cancelled ctx it.fired || (r.seen it.closedBy).closed) = true) :
    loopBody r ctx ep l it =
      Sum.inl ⟨it.read.1, it.read.2, (ep.wait it.wait).2, (l.latch it.gettid).unlatch⟩ := by
  have h1 : it.read.2 ≠ none := IsEAGAIN_some_of_true hread
  have h2 : (ep.wait it.wait).2 ≠ none := IsEAGAIN_some_of_true hwait
  unfold loopBody
  simp [epoll.latchWait, hread, hwait, h1, h2, hflag]

/-! ## The claims -/

/-- C1: when a read attempt of `readContext` reports a retryable error and the
wait that follows reports a retryable error too, the call returns `io.EOF` if
the reader is closed at that point; if it is not closed but the watcher has
set `cancelled`, the context is non-nil and the call returns exactly its
`Err()`, unless a `Close` of another goroutine completes between line 128 and
line 148, and then closed takes precedence and the call returns `io.EOF`.
The two hypotheses on the flags say that a `Close` is never undone and that
`cancelled` is never reset. -/
theorem readContext_interrupted_wait (r : RawReader) (ctx : Option Context)
    (env : ReadEnv) (ep : epoll) (pre : List Iter) (it : Iter) (rest : List Iter)
    (hprep : prepEpoll r.fd (EPOLLIN ||| EPOLLRDHUP) env.epollCreate env.epollCtlAdd
      = Except.ok ep)
    (hiters : env.iters = pre ++ it :: rest)
    (hpre : loop r ctx ep r.threadLatch pre = none)
    (hread : IsEAGAIN it.read.2 = true)
    (hwait : IsEAGAIN (ep.wait it.wait).2 = true)
    (hclosed : it.closedBy = true → env.closedBy = true)
    (hfired : it.fired = true → env.fired = true) :
    ((r.seen it.closedBy).closed = true →
      r.readContext ctx env = some (it.read.1, some Error.eof)) ∧
    ((r.seen it.closedBy).closed = false → cancelled ctx it.fired = true →
      ((r.seen env.closedBy).closed = false →
        ∃ c : Context, ctx = some c ∧
          r.readContext ctx env = some (it.read.1, some c.err)) ∧
      ((r.seen env.closedBy).closed = true →
        r.readContext ctx env = some (it.read.1, some Error.eof))) := by
  obtain ⟨l1, hl1⟩ := loop_append r ctx ep pre r.threadLatch hpre
  have hres : ∀ ex : LoopExit, loopBody r ctx ep l1 it = Sum.inl ex →
      r.readContext ctx env = some (ex.n, resolve r ctx env.closedBy env.fired ex.err) := by
    intro ex hb
    simp [RawReader.readContext, hprep, hiters, hl1, loop, hb]
  constructor
  · intro hc
    have hb := loopBody_interrupted r ctx ep l1 it hread hwait (by simp [hc])
    have hc2 : (r.seen env.closedBy).closed = true := by
      unfold RawReader.seen RawReader.closed at hc ⊢
      cases hk : it.closedBy
      · cases env.closedBy <;> simp_all
      · simp [hclosed hk]
    rw [hres _ hb]
    simp [resolve, hread, hc2]
  · intro _ hk
    have hb := loopBody_interrupted r ctx ep l1 it hread hwait (by simp [hk])
    rw [hres _ hb]
    constructor
    · intro hc2
      cases ctx with
      | none => simp [cancelled] at hk
      | some c =>
        refine ⟨c, rfl, ?_⟩
        simp only [cancelled] at hk
        simp [resolve, hread, hc2, hfired hk]
    · intro hc2
      simp [resolve, hread, hc2]

/-- Witness of C1: a reader over descriptor 5 whose read attempt reports EAGAIN
and whose wait is interrupted (EINTR), once after another goroutine closed
it, once with the reader open and the context cancelled. -/
theorem readContext_interrupted_wait_witness :
    RawReader.readContext ⟨5, true, ⟨false, 0, 0⟩⟩ (some ⟨Error.other 1⟩)
        ⟨(3, none), none,
          [⟨(-1, some (Error.errno EAGAIN)), 7, ⟨-1, some (Error.errno EINTR), ⟨0, 0⟩⟩,
            true, true, none⟩], true, true⟩
      = some (-1, some Error.eof) ∧
    RawReader.readContext ⟨5, true, ⟨false, 0, 0⟩⟩ (some ⟨Error.other 1⟩)
        ⟨(3, none), none,
          [⟨(-1, some (Error.errno EAGAIN)), 7, ⟨-1, some (Error.errno EINTR), ⟨0, 0⟩⟩,
            true, false, none⟩], false, true⟩
      = some (-1, some (Error.other 1)) :=
  ⟨(readContext_interrupted_wait ⟨5, true, ⟨false, 0, 0⟩⟩ (some ⟨Error.other 1⟩)
      ⟨(3, none), none,
        [⟨(-1, some (Error.errno EAGAIN)), 7, ⟨-1, some (Error.errno EINTR), ⟨0, 0⟩⟩,
          true, true, none⟩], true, true⟩
      ⟨3, 5, EPOLLIN ||| EPOLLRDHUP⟩ []
      ⟨(-1, some (Error.errno EAGAIN)), 7, ⟨-1, some (Error.errno EINTR), ⟨0, 0⟩⟩,
        true, true, none⟩ []
      rfl rfl rfl (by decide) (by decide) (fun _ => rfl) (fun _ => rfl)).1 (by decide),
   by
    obtain ⟨c, hc, h⟩ :=
      ((readContext_interrupted_wait ⟨5, true, ⟨false, 0, 0⟩⟩ (some ⟨Error.other 1⟩)
        ⟨(3, none), none,
          [⟨(-1, some (Error.errno EAGAIN)), 7, ⟨-1, some (Error.errno EINTR), ⟨0, 0⟩⟩,
            true, false, none⟩], false, true⟩
        ⟨3, 5, EPOLLIN ||| EPOLLRDHUP⟩ []
        ⟨(-1, some (Error.errno EAGAIN)), 7, ⟨-1, some (Error.errno EINTR), ⟨0, 0⟩⟩,
          true, false, none⟩ []
        rfl rfl rfl (by decide) (by decide) (fun h => Bool.noConfusion h)
        (fun _ => rfl)).2 (by decide) (by decide)).1 (by decide)
    cases hc
    exact h⟩

/-- C2: a reader over descriptor 5, open and without context; the read attempt
reports EAGAIN and the wait then delivers EPOLLHUP for descriptor 5.  Line 137
puts `io.EOF` into the `err` of line 125, and `Read` returns the EAGAIN of
the read attempt, not `io.EOF`. -/
theorem Read_hangup_returns_read_error :
    loop ⟨5, true, ⟨false, 0, 0⟩⟩ none ⟨3, 5, EPOLLIN ||| EPOLLRDHUP⟩ ⟨false, 0, 0⟩
        [⟨(-1, some (Error.errno EAGAIN)), 7, ⟨1, none, ⟨EPOLLHUP, 5⟩⟩, false, false, none⟩]
      = some ⟨-1, some (Error.errno EAGAIN), some Error.eof, ⟨false, 0, 0⟩⟩ ∧
    RawReader.Read ⟨5, true, ⟨false, 0, 0⟩⟩
        ⟨(3, none), none,
          [⟨(-1, some (Error.errno EAGAIN)), 7, ⟨1, none, ⟨EPOLLHUP, 5⟩⟩, false, false, none⟩],
          false, false⟩
      = some (-1, some (Error.errno EAGAIN)) :=
  ⟨rfl, rfl⟩

/-- C3: a reader over the read end (descriptor 5) of a pipe whose write end is
closed and that holds no data: the first read attempt reports 0 bytes and no
error, and `Read` returns 0 with a nil error, not `io.EOF`. -/
theorem Read_drained_pipe_returns_nil :
    RawReader.Read ⟨5, true, ⟨false, 0, 0⟩⟩
        ⟨(3, none), none,
          [⟨(0, none), 7, ⟨1, none, ⟨EPOLLHUP, 5⟩⟩, false, false, none⟩], false, false⟩
      = some (0, none) :=
  rfl

/-- C4: a reader over descriptor 5, open and without context, whose read
attempt reports EAGAIN.  When the wait then delivers EPOLLRDHUP, when it
delivers no event (the protocol error EBADFD), and when it delivers EPOLLIN
and the rearming fails with ENOMEM, `Read` returns the EAGAIN of the read
attempt, a retryable error. -/
theorem Read_returns_retryable_error :
    RawReader.Read ⟨5, true, ⟨false, 0, 0⟩⟩
        ⟨(3, none), none,
          [⟨(-1, some (Error.errno EAGAIN)), 7, ⟨1, none, ⟨EPOLLRDHUP, 5⟩⟩, false, false,
            none⟩],
          false, false⟩
      = some (-1, some (Error.errno EAGAIN)) ∧
    RawReader.Read ⟨5, true, ⟨false, 0, 0⟩⟩
        ⟨(3, none), none,
          [⟨(-1, some (Error.errno EAGAIN)), 7, ⟨0, none, ⟨0, 0⟩⟩, false, false, none⟩],
          false, false⟩
      = some (-1, some (Error.errno EAGAIN)) ∧
    RawReader.Read ⟨5, true, ⟨false, 0, 0⟩⟩
        ⟨(3, none), none,
          [⟨(-1, some (Error.errno EAGAIN)), 7, ⟨1, none, ⟨EPOLLIN, 5⟩⟩, false, false,
            some (Error.errno ENOMEM)⟩],
          false, false⟩
      = some (-1, some (Error.errno EAGAIN)) ∧
    IsEAGAIN (some (Error.errno EAGAIN)) = true :=
  ⟨rfl, rfl, rfl, rfl⟩

/-- C5: a reader over descriptor 5 without context, blocked: the read attempt
reports -1 and EAGAIN, then another goroutine closes the reader and the wait
is interrupted (EINTR).  `Read` returns `io.EOF` with the count -1 of the
failed read attempt, not with 0. -/
theorem Read_closed_while_blocked_count :
    RawReader.Read ⟨5, true, ⟨false, 0, 0⟩⟩
        ⟨(3, none), none,
          [⟨(-1, some (Error.errno EAGAIN)), 7, ⟨-1, some (Error.errno EINTR), ⟨0, 0⟩⟩,
            false, true, none⟩],
          true, false⟩
      = some (-1, some Error.eof) :=
  rfl

/-- C6: on a reader that came from `NewRawReader` and has seen any run of
`Close` calls, once a `Close` call has returned nil the reader has
`open = false` and `fd = -1`, and every later `Close` call returns nil, makes
no system call and leaves `open = false`, `fd = -1` and `Fd() = -1`. -/
theorem Close_idempotent (sig : Nat) (fd : Int) (setNonblock : Option Error)
    (r0 : RawReader) (hnew : NewRawReader fd setNonblock = Except.ok r0)
    (pre : List CloseCall) (c : CloseCall) (later : List CloseCall)
    (hnil : (RawReader.Close { (closeAll sig r0 pre).1 with threadLatch := c.latch }
      sig c.os).2.1 = none) :
    (closeAll sig r0 (pre ++ [c])).1.isOpen = false ∧
    (closeAll sig r0 (pre ++ [c])).1.fd = -1 ∧
    (∀ c2 : CloseCall,
      RawReader.Close { (closeAll sig r0 (pre ++ [c])).1 with threadLatch := c2.latch }
          sig c2.os
        = ({ (closeAll sig r0 (pre ++ [c])).1 with threadLatch := c2.latch }, none, [])) ∧
    (∀ x ∈ (closeAll sig (closeAll sig r0 (pre ++ [c])).1 later).2, x = (none, [])) ∧
    (closeAll sig (closeAll sig r0 (pre ++ [c])).1 later).1.isOpen = false ∧
    (closeAll sig (closeAll sig r0 (pre ++ [c])).1 later).1.fd = -1 ∧
    (closeAll sig (closeAll sig r0 (pre ++ [c])).1 later).1.Fd = -1 := by
  have hr0 : r0.isOpen = false → r0.fd = -1 := by
    cases setNonblock with
    | some e => simp [NewRawReader] at hnew
    | none =>
      simp only [NewRawReader, Except.ok.injEq] at hnew
      subst hnew
      intro h
      simp at h
  have hsplit : ∀ (xs : List CloseCall) (r : RawReader),
      (closeAll sig r (xs ++ [c])).1
        = (RawReader.Close { (closeAll sig r xs).1 with threadLatch := c.latch } sig c.os).1 := by
    intro xs
    induction xs with
    | nil => intro r; simp [closeAll]
    | cons x rest ih => intro r; simp only [List.cons_append, closeAll]; exact ih _
  have hpre := closeAll_keeps_sentinel sig pre r0 hr0
  have hopen1 : (closeAll sig r0 (pre ++ [c])).1.isOpen = false := by
    rw [hsplit]
    exact Close_nil_not_open _ sig c.os hnil
  have hfd1 : (closeAll sig r0 (pre ++ [c])).1.fd = -1 :=
    closeAll_keeps_sentinel sig (pre ++ [c]) r0 hr0 hopen1
  have hlater := closeAll_of_not_open sig later _ hopen1
  refine ⟨hopen1, hfd1, ?_, hlater.2.2, hlater.1, ?_, ?_⟩
  · intro c2
    exact Close_of_not_open _ sig c2.os hopen1
  · rw [hlater.2.1]; exact hfd1
  · unfold RawReader.Fd; rw [hlater.2.1]; exact hfd1

/-- Witness of C6: `Close` on a fresh reader over descriptor 5 succeeds; the
reader is then closed with descriptor -1, and a further `Close`, made while
thread 7 is latched, returns nil without a system call. -/
theorem Close_idempotent_witness :
    (closeAll 29 ⟨5, true, ⟨false, 0, 0⟩⟩
      ([] ++ [⟨⟨false, 0, 0⟩, ⟨none, ⟨8, 100, none⟩⟩⟩])).1.isOpen = false ∧
    (closeAll 29 ⟨5, true, ⟨false, 0, 0⟩⟩
      ([] ++ [⟨⟨false, 0, 0⟩, ⟨none, ⟨8, 100, none⟩⟩⟩])).1.fd = -1 ∧
    RawReader.Close
        { (closeAll 29 ⟨5, true, ⟨false, 0, 0⟩⟩
            ([] ++ [⟨⟨false, 0, 0⟩, ⟨none, ⟨8, 100, none⟩⟩⟩])).1 with
          threadLatch := (CloseCall.mk ⟨true, 7, 1⟩ ⟨none, ⟨8, 100, none⟩⟩).latch }
        29 (CloseCall.mk ⟨true, 7, 1⟩ ⟨none, ⟨8, 100, none⟩⟩).os
      = ({ (closeAll 29 ⟨5, true, ⟨false, 0, 0⟩⟩
            ([] ++ [⟨⟨false, 0, 0⟩, ⟨none, ⟨8, 100, none⟩⟩⟩])).1 with
          threadLatch := (CloseCall.mk ⟨true, 7, 1⟩ ⟨none, ⟨8, 100, none⟩⟩).latch },
        none, []) :=
  have h := Close_idempotent 29 5 none ⟨5, true, ⟨false, 0, 0⟩⟩ rfl []
    ⟨⟨false, 0, 0⟩, ⟨none, ⟨8, 100, none⟩⟩⟩ [] rfl
  ⟨h.1, h.2.1, h.2.2.1 ⟨⟨true, 7, 1⟩, ⟨none, ⟨8, 100, none⟩⟩⟩⟩

/-- Counterexample to C7: a reader closed by `Close` (open = false, fd = -1);
the poller is created and the registration of descriptor -1 fails with EBADF.
`Read` returns 0 with EBADF, not with `io.EOF`. -/
theorem Read_after_close_returns_setup_error :
    RawReader.Read ⟨-1, false, ⟨false, 0, 0⟩⟩
        ⟨(3, none), some (Error.errno EBADF), [], false, false⟩
      = some (0, some (Error.errno EBADF)) ∧
    RawReader.Read ⟨-1, false, ⟨false, 0, 0⟩⟩
        ⟨(3, none), some (Error.errno EBADF), [], false, false⟩
      ≠ some (0, some Error.eof) :=
  ⟨rfl, by decide⟩

/-- C7, amended: on a reader that a successful `Close` has left (open = false,
fd = -1), for every context and whatever else the system would answer, a
`Read` or `ReadContext` whose poller setup on descriptor -1 fails returns
count 0 with the error of that setup. -/
theorem readContext_after_close (r0 : RawReader) (sig : Nat) (os : CloseEnv)
    (hopen : r0.isOpen = true) (hnil : (r0.Close sig os).2.1 = none)
    (ctx : Option Context) (env : ReadEnv) (e : Error)
    (hprep : prepEpoll (-1) (EPOLLIN ||| EPOLLRDHUP) env.epollCreate env.epollCtlAdd
      = Except.error e) :
    (r0.Close sig os).1.isOpen = false ∧
    (r0.Close sig os).1.fd = -1 ∧
    (r0.Close sig os).1.readContext ctx env = some (0, some e) ∧
    (r0.Close sig os).1.Read env = some (0, some e) ∧
    (r0.Close sig os).1.ReadContext ctx env = some (0, some e) := by
  have hopen1 : (r0.Close sig os).1.isOpen = false := Close_nil_not_open r0 sig os hnil
  have hfd1 : (r0.Close sig os).1.fd = -1 :=
    Close_keeps_sentinel r0 sig os (fun h => by rw [hopen] at h; cases h) hopen1
  have hread : ∀ c : Option Context,
      (r0.Close sig os).1.readContext c env = some (0, some e) := by
    intro c
    simp [RawReader.readContext, hfd1, hprep]
  exact ⟨hopen1, hfd1, hread ctx, hread none, hread ctx⟩

/-- Witness of C7, amended: the reader over descriptor 5 is closed, and in the
next `Read` the registration of descriptor -1 fails with EBADF. -/
theorem readContext_after_close_witness :
    (RawReader.Close ⟨5, true, ⟨false, 0, 0⟩⟩ 29 ⟨none, ⟨8, 100, none⟩⟩).1.Read
        ⟨(3, none), some (Error.errno EBADF), [], false, false⟩
      = some (0, some (Error.errno EBADF)) :=
  (readContext_after_close ⟨5, true, ⟨false, 0, 0⟩⟩ 29 ⟨none, ⟨8, 100, none⟩⟩ rfl rfl none
    ⟨(3, none), some (Error.errno EBADF), [], false, false⟩ (Error.errno EBADF) rfl).2.2.2.1

/-- C8: a fresh reader over descriptor 5 with a read blocked on thread 7.
`Close` from thread 8 closes descriptor 5, the signal delivery fails with
EINVAL, and `Close` returns that error at line 63 with the reader still open
over descriptor 5; the next `Close`, made when the read has returned, closes
descriptor 5 a second time. -/
theorem Close_twice_closes_descriptor_twice :
    NewRawReader 5 none = Except.ok ⟨5, true, ⟨false, 0, 0⟩⟩ ∧
    RawReader.Close ⟨5, true, ⟨true, 7, 1⟩⟩ 1000 ⟨none, ⟨8, 100, some (Error.errno EINVAL)⟩⟩
      = (⟨5, true, ⟨true, 7, 1⟩⟩, some (Error.errno EINVAL),
          [SysCall.close 5 none, SysCall.tgkill 100 7 1000 (some (Error.errno EINVAL))]) ∧
    closeAll 1000 ⟨5, true, ⟨false, 0, 0⟩⟩
        [⟨⟨true, 7, 1⟩, ⟨none, ⟨8, 100, some (Error.errno EINVAL)⟩⟩⟩,
          ⟨⟨false, 0, 0⟩, ⟨none, ⟨8, 100, none⟩⟩⟩]
      = (⟨-1, false, ⟨false, 0, 0⟩⟩,
          [(some (Error.errno EINVAL),
              [SysCall.close 5 none, SysCall.tgkill 100 7 1000 (some (Error.errno EINVAL))]),
            (none, [SysCall.close 5 none])]) ∧
    (((closeAll 1000 ⟨5, true, ⟨false, 0, 0⟩⟩
        [⟨⟨true, 7, 1⟩, ⟨none, ⟨8, 100, some (Error.errno EINVAL)⟩⟩⟩,
          ⟨⟨false, 0, 0⟩, ⟨none, ⟨8, 100, none⟩⟩⟩]).2.map
        (fun x => closesOf 5 x.2)).sum = 2) :=
  ⟨rfl, rfl, rfl, by decide⟩

/-- C9: `notify` returns nil and delivers no signal when `active` is false, and
when `active` is true and `threadID` is the caller's thread id; when `active`
is true and `threadID` differs from the caller's thread id it makes the one
`tgkill` call to `threadID` and returns its result; so a signal is delivered
exactly when `active` is true and `threadID` differs from the caller's.  On
the fresh latch, and after `latch` followed by `unlatch`, nothing is
delivered. -/
theorem notify_noop_safety (tl : threadLatch) (signal NotifySignal : Nat)
    (os : NotifyEnv) (gettid : Int) :
    (tl.active = false → tl.notify signal NotifySignal os = (none, [])) ∧
    (tl.active = true → tl.threadID = os.gettid →
      tl.notify signal NotifySignal os = (none, [])) ∧
    (tl.active = true → tl.threadID ≠ os.gettid →
      tl.notify signal NotifySignal os
        = (os.tgkill,
            [SysCall.tgkill os.getpid tl.threadID
              (if signal = 0 then NotifySignal else signal) os.tgkill])) ∧
    ((tl.notify signal NotifySignal os).2 ≠ [] ↔
      (tl.active = true ∧ tl.threadID ≠ os.gettid)) ∧
    (threadLatch.mk false 0 0).notify signal NotifySignal os = (none, []) ∧
    ((tl.latch gettid).unlatch).notify signal NotifySignal os = (none, []) := by
  refine ⟨?_, ?_, ?_, ?_, ?_, ?_⟩
  · intro h; simp [threadLatch.notify, h]
  · intro h1 h2; simp [threadLatch.notify, h1, h2]
  · intro h1 h2; simp [threadLatch.notify, h1, h2]
  · unfold threadLatch.notify
    cases h1 : tl.active
    · simp
    · by_cases h2 : tl.threadID = os.gettid
      · simp [h2]
      · simp [h2]
  · simp [threadLatch.notify]
  · simp [threadLatch.notify, threadLatch.unlatch, threadLatch.deactivate]

/-- Witness of C9: no delivery on an idle latch and on the caller's own
latched thread; a latch held by thread 7 and notified from thread 8 gets the
one `tgkill` call, whose result EINVAL is returned. -/
theorem notify_noop_safety_witness :
    threadLatch.notify ⟨false, 7, 0⟩ 29 29 ⟨8, 100, none⟩ = (none, []) ∧
    threadLatch.notify ⟨true, 8, 1⟩ 29 29 ⟨8, 100, none⟩ = (none, []) ∧
    threadLatch.notify ⟨true, 7, 1⟩ 0 29 ⟨8, 100, some (Error.errno EINVAL)⟩
      = (some (Error.errno EINVAL),
          [SysCall.tgkill 100 7 (if 0 = 0 then 29 else 0) (some (Error.errno EINVAL))]) :=
  ⟨(notify_noop_safety ⟨false, 7, 0⟩ 29 29 ⟨8, 100, none⟩ 0).1 rfl,
   (notify_noop_safety ⟨true, 8, 1⟩ 29 29 ⟨8, 100, none⟩ 0).2.1 rfl rfl,
   (notify_noop_safety ⟨true, 7, 1⟩ 0 29 ⟨8, 100, some (Error.errno EINVAL)⟩ 0).2.2.1 rfl
     (by decide)⟩

/-- C10: when the system's wait call reports no error, `wait` returns mask 0
with EBADFD if the event count is not 1, and mask 0 with EBADE if the count is
1 and the event's descriptor is not `commFD`; in both cases the error is not
nil and not retryable; with count 1 and descriptor `commFD` it returns the
event's mask with a nil error. -/
theorem wait_protocol_strict (p : epoll) (os : WaitResult) (h : os.err = none) :
    (os.n ≠ 1 → p.wait os = (0, some (Error.errno EBADFD))) ∧
    (os.n = 1 → os.evt.Fd ≠ p.commFD → p.wait os = (0, some (Error.errno EBADE))) ∧
    ((os.n ≠ 1 ∨ os.evt.Fd ≠ p.commFD) →
      (p.wait os).1 = 0 ∧ (p.wait os).2 ≠ none ∧ IsEAGAIN (p.wait os).2 = false) ∧
    (os.n = 1 → os.evt.Fd = p.commFD → p.wait os = (os.evt.Events, none)) := by
  have hbadfd : IsEAGAIN (some (Error.errno EBADFD)) = false := by decide
  have hbade : IsEAGAIN (some (Error.errno EBADE)) = false := by decide
  refine ⟨?_, ?_, ?_, ?_⟩
  · intro hn; simp [epoll.wait, h, hn]
  · intro hn hfd; simp [epoll.wait, h, hn, hfd]
  · intro hor
    by_cases hn : os.n = 1
    · have hfd : os.evt.Fd ≠ p.commFD := by
        rcases hor with h1 | h1
        · exact absurd hn h1
        · exact h1
      simp [epoll.wait, h, hn, hfd, hbade]
    · simp [epoll.wait, h, hn, hbadfd]
  · intro hn hfd; simp [epoll.wait, h, hn, hfd]

/-- Witness of C10: a poller bound to descriptor 5 that gets no event, one
event for descriptor 6, and one EPOLLIN event for descriptor 5. -/
theorem wait_protocol_strict_witness :
    epoll.wait ⟨3, 5, EPOLLIN ||| EPOLLRDHUP⟩ ⟨0, none, ⟨0, 0⟩⟩
      = (0, some (Error.errno EBADFD)) ∧
    epoll.wait ⟨3, 5, EPOLLIN ||| EPOLLRDHUP⟩ ⟨1, none, ⟨EPOLLIN, 6⟩⟩
      = (0, some (Error.errno EBADE)) ∧
    epoll.wait ⟨3, 5, EPOLLIN ||| EPOLLRDHUP⟩ ⟨1, none, ⟨EPOLLIN, 5⟩⟩
      = ((EpollEvent.mk EPOLLIN 5).Events, none) :=
  ⟨(wait_protocol_strict ⟨3, 5, EPOLLIN ||| EPOLLRDHUP⟩ ⟨0, none, ⟨0, 0⟩⟩ rfl).1 (by decide),
   (wait_protocol_strict ⟨3, 5, EPOLLIN ||| EPOLLRDHUP⟩ ⟨1, none, ⟨EPOLLIN, 6⟩⟩ rfl).2.1 rfl
     (by decide),
   (wait_protocol_strict ⟨3, 5, EPOLLIN ||| EPOLLRDHUP⟩ ⟨1, none, ⟨EPOLLIN, 5⟩⟩ rfl).2.2.2 rfl
     rfl⟩

end Rawio
